import Mathlib

/-!
# Verisentinel UI — shallow embedding

A shallow embedding of the two source files of the repository,
`src/client/src/pages/change-management.tsx` and
`src/client/src/pages/network-topology.tsx`, together with theorems
settling the frozen claims about them.

Conventions:
* JS strings are `String`; JS numbers used as identifiers are `Int`;
  geometric coordinates (SVG positions) are `Rat`, since the layout code
  divides widths.
* Optional values (`user?.role`, optional record fields) are `Option`.
* React render output is modelled as a list of SVG primitives
  (`Element`); imperative effect handlers (mutation `onSuccess` /
  `onError` callbacks) are modelled as lists of `Effect`s in the order
  the source issues them.
-/

namespace Verisentinel

/-! ## Change management: data model (`change-management.tsx`) -/

/-- The authenticated user as seen through `useAuth()`: only the `role`
field is consulted by this page. -/
structure User where
  role : String
deriving DecidableEq, Repr

/-- A change request as consumed by `ChangeManagement` (fields the page
reads).  `status` is a plain string in the source; the vocabulary is
"pending" / "approved" / "implemented" / "rejected". -/
structure ChangeRequest where
  id : Int
  title : String
  description : String
  status : String
  requestedBy : Int
deriving DecidableEq, Repr

/-- Optional chaining `user?.role` on the possibly-absent user. -/
def userRole (user : Option User) : Option String :=
  user.map User.role

/-- The render condition of the approve section (line 612):
`selectedRequest.status === "pending" && (user?.role === "admin" || user?.role === "approver")`. -/
def approveControlRendered (req : ChangeRequest) (user : Option User) : Bool :=
  req.status == "pending" &&
    (userRole user == some "admin" || userRole user == some "approver")

/-- The render condition of the implement section (line 636):
`selectedRequest.status === "approved" && (user?.role === "admin" || user?.role === "implementer")`. -/
def implementControlRendered (req : ChangeRequest) (user : Option User) : Bool :=
  req.status == "approved" &&
    (userRole user == some "admin" || userRole user == some "implementer")

/-- A transition action the details dialog can issue: clicking the
approve button runs `handleApproveRequest(selectedRequest.id)`, clicking
the implement button runs `handleImplementRequest(selectedRequest.id)`. -/
inductive UIAction where
  | approve (id : Int)
  | implement (id : Int)
deriving DecidableEq, Repr

/-- The set of transition actions the dialog can issue for a selected
request: each button exists exactly when its section is rendered, and a
click issues the mutation for `selectedRequest.id`. -/
def issuableActions (req : ChangeRequest) (user : Option User) : List UIAction :=
  (if approveControlRendered req user then [UIAction.approve req.id] else []) ++
  (if implementControlRendered req user then [UIAction.implement req.id] else [])

/-! ## Change management: mutation handlers as effect lists

The ambient effect vocabulary: `invalidateQueries` and `setQueryData`
are the two cache operations of the query client (`setQueryData` —
writing/merging data into the cache — is available to the page but, as
the theorems show, never used); `retryMutation` stands for re-issuing a
failed request (available, never used); the rest are the local state
setters and the toast the page actually calls. -/
inductive Effect where
  | invalidateQueries (queryKey : String)
  | setQueryData (queryKey : String)
  | retryMutation
  | setDialogOpen (b : Bool)
  | setDetailsOpen (b : Bool)
  | formReset
  | toast (title description : String) (destructive : Bool)
deriving DecidableEq, Repr

/-- Effects of `createRequestMutation.onSuccess` (lines 77–85), in
source order. -/
def createOnSuccess : List Effect :=
  [Effect.invalidateQueries "/api/change-requests",
   Effect.setDialogOpen false,
   Effect.formReset,
   Effect.toast "Change Request Created"
     "The change request has been successfully created and is pending approval." false]

/-- Effects of `approveRequestMutation.onSuccess` (lines 101–108). -/
def approveOnSuccess : List Effect :=
  [Effect.invalidateQueries "/api/change-requests",
   Effect.setDetailsOpen false,
   Effect.toast "Change Request Approved"
     "The change request has been approved successfully." false]

/-- Effects of `implementRequestMutation.onSuccess` (lines 124–131). -/
def implementOnSuccess : List Effect :=
  [Effect.invalidateQueries "/api/change-requests",
   Effect.setDetailsOpen false,
   Effect.toast "Change Request Implemented"
     "The change request has been marked as implemented." false]

/-- Effects of `createRequestMutation.onError` (lines 86–92): a single
destructive toast carrying `error.message`. -/
def createOnError (msg : String) : List Effect :=
  [Effect.toast "Failed to Create Change Request" msg true]

/-- Effects of `approveRequestMutation.onError` (lines 109–115). -/
def approveOnError (msg : String) : List Effect :=
  [Effect.toast "Failed to Approve Change Request" msg true]

/-- Effects of `implementRequestMutation.onError` (lines 132–138). -/
def implementOnError (msg : String) : List Effect :=
  [Effect.toast "Failed to Implement Change Request" msg true]

/-- Whether an effect writes into the query cache (merges or edits
cached data) rather than merely invalidating it. -/
def Effect.writesCache : Effect → Bool
  | Effect.setQueryData _ => true
  | _ => false

/-- Whether an effect invalidates a cached query. -/
def Effect.invalidates : Effect → Bool
  | Effect.invalidateQueries _ => true
  | _ => false

/-- Whether an effect re-issues (retries) a request. -/
def Effect.retries : Effect → Bool
  | Effect.retryMutation => true
  | _ => false

/-! ## Change management: form schema (`requestFormSchema`, lines 39–52) -/

/-- The draft a form submission carries.  Fields `title`, `description`,
`type`, `riskLevel` are always present in the form state; the remaining
zod-`optional` fields are `Option`s. -/
structure RequestForm where
  title : String
  description : String
  ty : String
  riskLevel : String
  affectedSystems : Option String
  backoutPlan : Option String
  sourceIp : Option String
  destinationIp : Option String
  portServices : Option String
  action : Option String
  firewallRules : Option String
deriving DecidableEq, Repr

/-- The `z.enum` vocabulary of the `type` field. -/
def validChangeTypes : List String :=
  ["standard", "firewall", "server", "network", "emergency"]

/-- The `z.enum` vocabulary of the `riskLevel` field. -/
def validRiskLevels : List String :=
  ["low", "medium", "high", "critical"]

/-- The `z.enum` vocabulary of the optional `action` field. -/
def validFirewallActions : List String :=
  ["allow", "deny", "nat", "other"]

/-- Validation by `requestFormSchema`: `title` and `description` must have
length ≥ 1 (`.min(1)`); `type` and `riskLevel` must belong to their
enums; `action`, when present, must belong to its enum; all other fields
are unconstrained optional strings. -/
def requestFormValid (f : RequestForm) : Bool :=
  (1 ≤ f.title.length) && (1 ≤ f.description.length) &&
  validChangeTypes.contains f.ty && validRiskLevels.contains f.riskLevel &&
  (match f.action with
   | none => true
   | some a => validFirewallActions.contains a)

/-- The form's `defaultValues` (lines 56–68): every firewall-specific
field defaults to the empty string. -/
def defaultFormValues : RequestForm :=
  { title := "Firewall Rule Change"
    description := ""
    ty := "firewall"
    riskLevel := "medium"
    affectedSystems := some ""
    backoutPlan := some ""
    sourceIp := some ""
    destinationIp := some ""
    portServices := some ""
    action := some "allow"
    firewallRules := some "" }

/-- The body `handleCreateRequest` posts: `apiRequest("POST",
"/api/change-requests", data)` sends the validated form data unchanged. -/
def submittedBody (f : RequestForm) : RequestForm := f

/-! ## Network topology: data model (`network-topology.tsx`) -/

/-- A device as returned by `GET /api/devices` (the fields this page
reads). -/
structure Device where
  id : Int
  name : String
  type : String
  status : String
  siteId : Int
  parentDeviceId : Option Int
deriving DecidableEq, Repr

/-- A site as returned by `GET /api/sites` (fields this page reads). -/
structure Site where
  id : Int
  name : String
deriving DecidableEq, Repr

/-- Filtering (`filteredDevices`, lines 191–195): keep a device when
`(selectedSite === "all" || device.siteId.toString() === selectedSite)`
and `(selectedDeviceType === "all" || device.type === selectedDeviceType)`. -/
def filteredDevices (devices : List Device)
    (selectedSite selectedDeviceType : String) : List Device :=
  devices.filter fun device =>
    (selectedSite == "all" || toString device.siteId == selectedSite) &&
    (selectedDeviceType == "all" || device.type == selectedDeviceType)

/-- A node of the `/api/topology` device hierarchy: a device together
with its (possibly empty) list of child nodes (`DeviceNode extends
Device` with optional `children`). -/
inductive DeviceNode where
  | mk (id : Int) (name type status : String) (siteId : Int)
      (parentDeviceId : Option Int) (children : List DeviceNode)

def DeviceNode.id : DeviceNode → Int
  | .mk i _ _ _ _ _ _ => i

def DeviceNode.name : DeviceNode → String
  | .mk _ n _ _ _ _ _ => n

def DeviceNode.type : DeviceNode → String
  | .mk _ _ t _ _ _ _ => t

def DeviceNode.status : DeviceNode → String
  | .mk _ _ _ s _ _ _ => s

def DeviceNode.children : DeviceNode → List DeviceNode
  | .mk _ _ _ _ _ _ c => c

/-! ## Network topology: visual encoding and layout -/

/-- The fill/stroke colour pair of a device node (lines 33–58): the
default is the switch palette; firewalls, routers and servers override
it, and a server's palette is further overridden by its status. -/
def deviceColors (type status : String) : String × String :=
  if type == "firewall" then ("#FEF3C7", "#FF832B")
  else if type == "router" then ("#D1FAE5", "#42BE65")
  else if type == "server" then
    if status == "critical" || status == "down" then ("#FEE2E2", "#FF0000")
    else if status == "warning" then ("#FEF3C7", "#FF832B")
    else if status == "secure" || status == "compliant" then ("#D1FAE5", "#42BE65")
    else ("#CCE0FF", "#0F62FE")
  else ("#E0E7FF", "#6366F1")

/-- Node width (`nodeWidth`, line 62): 50 for servers, 60 for every
other type. -/
def nodeWidth (type : String) : Rat :=
  if type == "server" then 50 else 60

/-- Node height (`nodeHeight`, line 63). -/
def nodeHeight : Rat := 40

/-- Vertical spacing (`verticalSpacing`, line 66): a constant,
independent of `level`. -/
def verticalSpacing : Rat := 70

/-- A device label (line 97): names longer than 6 characters are cut to
`substring(0, 5)` plus an ellipsis. -/
def hierarchyLabel (name : String) : String :=
  if name.length > 6 then (name.take 5) ++ "..." else name

/-- A static-tier device label (lines 385/426/476): names longer than 10
characters are cut to `substring(0, 8)` plus an ellipsis. -/
def staticLabel (name : String) : String :=
  if name.length > 10 then (name.take 8) ++ "..." else name

/-- An SVG primitive of the diagram, as emitted by the render code.
`circle`'s `pulse` records whether the element carries the
`animate-pulse` class (true exactly for the risk-indicator circles);
`path`'s eight coordinates are the cubic `M x1,y1 C c1x,c1y c2x,c2y
x2,y2` of a connector. -/
inductive Element where
  | rect (x y w h rx : Rat) (fill stroke : String)
  | circle (cx cy r : Rat) (fill : String) (pulse : Bool) (opacity : Rat)
  | label (x y : Rat) (content : String)
  | path (x1 y1 c1x c1y c2x c2y x2 y2 : Rat) (stroke : String)
deriving DecidableEq, Repr

/-- Whether an element is a pulsing risk-indicator circle (a `circle`
with the `animate-pulse` class, lines 101–106). -/
def Element.isRiskIndicator : Element → Bool
  | .circle _ _ _ _ pulse _ => pulse
  | _ => false

/-- The pulsing risk-indicator circles among a list of elements. -/
def riskIndicators (l : List Element) : List Element :=
  l.filter Element.isRiskIndicator

/-- The elements of one device's `<g>` group in `renderDeviceHierarchy`
(lines 72–108): the node rect, its interface-port circle, its label, and
— for status critical/down a red, for status warning an orange —
pulsing risk-indicator circle at `(x + nodeWidth/2, y − 10)`. -/
def deviceNodeElements (d : DeviceNode) (x y : Rat) : List Element :=
  let fs := deviceColors d.type d.status
  let w := nodeWidth d.type
  [Element.rect x y w nodeHeight 5 fs.1 fs.2,
   Element.circle (x + w / 2) y 3 fs.2 false 1,
   Element.label (x + w / 2) (y + 24) (hierarchyLabel d.name)] ++
  (if d.status == "critical" || d.status == "down" then
    [Element.circle (x + w / 2) (y - 10) 5 "#FF0000" true (3/5)] else []) ++
  (if d.status == "warning" then
    [Element.circle (x + w / 2) (y - 10) 5 "#FF832B" true (3/5)] else [])

mutual
/-- Recursive layout (`renderDeviceHierarchy`, lines 25–151): the
device's own group
followed, when it has children, by each child's connector and recursive
rendering.  `childWidth = availableWidth / childrenCount`; each child is
recursively rendered with available width `childWidth - 10`. -/
def renderDeviceHierarchy : DeviceNode → Rat → Rat → Nat → Rat → List Element
  | DeviceNode.mk i n t s si pd children, x, y, level, availableWidth =>
    deviceNodeElements (DeviceNode.mk i n t s si pd children) x y ++
    (if children.isEmpty then [] else
      renderChildren i (nodeWidth t) x y level availableWidth
        (availableWidth / (children.length : Rat)) 0 children)

/-- The per-child loop of `renderDeviceHierarchy` (lines 116–147),
with `index` the running 0-based child index: child `index` is placed at
`childX = x - availableWidth/2 + childWidth*index + childWidth/2 - 25`,
`childY = y + verticalSpacing`, its connector is the cubic
`M pX,(y+nodeHeight) C pX,(y+nodeHeight+20) (childX+25),(childY-20)
(childX+25),childY` with `pX = x + parentNodeWidth/2`, and the child is
rendered recursively with width `childWidth - 10`. -/
def renderChildren (parentId : Int) (pw x y : Rat) (level : Nat)
    (availableWidth childWidth : Rat) (index : Nat) :
    List DeviceNode → List Element
  | [] => []
  | child :: rest =>
    let childX := x - availableWidth / 2 + childWidth * (index : Rat) + childWidth / 2 - 25
    let childY := y + verticalSpacing
    Element.path (x + pw / 2) (y + nodeHeight) (x + pw / 2) (y + nodeHeight + 20)
        (childX + 25) (childY - 20) (childX + 25) childY "#9CA3AF"
      :: (renderDeviceHierarchy child childX childY (level + 1) (childWidth - 10) ++
          renderChildren parentId pw x y level availableWidth childWidth (index + 1) rest)
end

/-! ## Network topology: static firewall/router/switch tiers -/

/-- The static firewall rendering (lines 344–389): a fixed-position rect
at (370, 120), one input and two output interface ports, three interface
labels and the name label.  No pulsing indicator is ever emitted. -/
def staticFirewallElements (device : Device) : List Element :=
  let x : Rat := 370
  let y : Rat := 120
  [Element.rect x y 60 40 5 "#FEF3C7" "#FF832B",
   Element.circle (x + 30) y 3 "#FF832B" false 1,
   Element.circle (x + 20) (y + 40) 3 "#FF832B" false 1,
   Element.circle (x + 40) (y + 40) 3 "#FF832B" false 1,
   Element.label (x + 40) (y + 5) "WAN",
   Element.label (x + 15) (y + 35) "LAN1",
   Element.label (x + 45) (y + 35) "LAN2",
   Element.label (x + 30) (y + 24) (staticLabel device.name)]

/-- The static router rendering (lines 392–430): fixed position
(370, 190), three interface ports and the name label; no pulsing
indicator. -/
def staticRouterElements (device : Device) : List Element :=
  let x : Rat := 370
  let y : Rat := 190
  [Element.rect x y 60 40 5 "#D1FAE5" "#42BE65",
   Element.circle (x + 30) y 3 "#42BE65" false 1,
   Element.circle x (y + 20) 3 "#42BE65" false 1,
   Element.circle (x + 60) (y + 20) 3 "#42BE65" false 1,
   Element.label (x + 30) (y + 24) (staticLabel device.name)]

/-- The static switch position (lines 436–445): default (200, 320);
(570, 320) when the device's site is found and its id is not 1. -/
def staticSwitchPos (device : Device) (sites : List Site) : Rat × Rat :=
  match sites.find? (fun s => s.id == device.siteId) with
  | some site => if site.id ≠ 1 then (570, 320) else (200, 320)
  | none => (200, 320)

/-- The static switch rendering (lines 433–480): site-dependent
position, four interface ports and the name label; no pulsing
indicator. -/
def staticSwitchElements (device : Device) (sites : List Site) : List Element :=
  let p := staticSwitchPos device sites
  let x := p.1
  let y := p.2
  [Element.rect x y 60 40 5 "#E0E7FF" "#6366F1",
   Element.circle (x + 30) y 3 "#6366F1" false 1,
   Element.circle (x + 15) (y + 40) 3 "#6366F1" false 1,
   Element.circle (x + 30) (y + 40) 3 "#6366F1" false 1,
   Element.circle (x + 45) (y + 40) 3 "#6366F1" false 1,
   Element.label (x + 30) (y + 24) (staticLabel device.name)]

/-! ## Network topology: zoom -/

/-- Zoom in (`handleZoomIn`, lines 221–223): `Math.min(prev + 0.1, 2)`. -/
def handleZoomIn (prev : Rat) : Rat := min (prev + 1/10) 2

/-- Zoom out (`handleZoomOut`, lines 225–227): `Math.max(prev - 0.1, 0.5)`. -/
def handleZoomOut (prev : Rat) : Rat := max (prev - 1/10) (1/2)

/-- The initial zoom state (line 175): `useState(1)`. -/
def initialZoom : Rat := 1

/-- A zoom action of the toolbar. -/
inductive ZoomAction where
  | zoomIn
  | zoomOut
deriving DecidableEq, Repr

/-- One zoom action applied to the current zoom state. -/
def applyZoom (z : Rat) : ZoomAction → Rat
  | ZoomAction.zoomIn => handleZoomIn z
  | ZoomAction.zoomOut => handleZoomOut z

/-- The zoom state after a sequence of zoom actions, starting from a
given state. -/
def runZoom (z : Rat) (actions : List ZoomAction) : Rat :=
  actions.foldl applyZoom z

/-! ## Observation helpers and sample inputs -/

/-- The end point of every connector path in a list of elements. -/
def pathEndPoints (l : List Element) : List (Rat × Rat) :=
  l.filterMap fun e => match e with
    | Element.path _ _ _ _ _ _ x2 y2 _ => some (x2, y2)
    | _ => none

/-- The position and width of every rect in a list of elements. -/
def rectAnchors (l : List Element) : List (Rat × Rat × Rat) :=
  l.filterMap fun e => match e with
    | Element.rect x y w _ _ _ _ => some (x, y, w)
    | _ => none

/-- A change request already in the terminal status "implemented". -/
def implementedReq : ChangeRequest :=
  { id := 7, title := "Swap core switch", description := "done", status := "implemented", requestedBy := 3 }

/-- A change request in status "pending". -/
def pendingReq : ChangeRequest :=
  { id := 8, title := "Open port 443", description := "allow https", status := "pending", requestedBy := 4 }

/-- A user whose role is "approver". -/
def approverUser : User := { role := "approver" }

/-- A firewall change-request draft with a nonempty description and the
sourceIp still at its empty-string default. -/
def sampleFirewallForm : RequestForm :=
  { defaultFormValues with description := "Allow outbound HTTPS" }

/-- A firewall device whose status is "critical". -/
def criticalFirewall : Device :=
  { id := 1, name := "edge-fw", type := "firewall", status := "critical", siteId := 1, parentDeviceId := none }

/-- A topology node for a server whose status is "critical". -/
def criticalServerNode : DeviceNode :=
  DeviceNode.mk 9 "db-1" "server" "critical" 1 (some 1) []

/-- A leaf server node. -/
def sampleServerChild : DeviceNode :=
  DeviceNode.mk 2 "srv-1" "server" "active" 1 (some 1) []

/-- A switch with one server child. -/
def sampleSwitchParent : DeviceNode :=
  DeviceNode.mk 1 "sw-1" "switch" "active" 1 none [sampleServerChild]

/-- A leaf switch node. -/
def sampleSwitchChild : DeviceNode :=
  DeviceNode.mk 3 "sw-2" "switch" "active" 1 (some 4) []

/-- A router with one switch (non-server) child. -/
def sampleRouterParent : DeviceNode :=
  DeviceNode.mk 4 "rt-1" "router" "active" 1 none [sampleSwitchChild]

/-- A switch device in site 1 with status "warning". -/
def warningSwitch : Device :=
  { id := 5, name := "sw-5", type := "switch", status := "warning", siteId := 1, parentDeviceId := none }

/-! ## Helper lemmas -/

/-- A rendered approve control forces the selected status "pending". -/
lemma approve_rendered_status {req : ChangeRequest} {user : Option User}
    (h : approveControlRendered req user = true) : req.status = "pending" := by
  simp only [approveControlRendered, Bool.and_eq_true, beq_iff_eq] at h
  exact h.1

/-- A rendered implement control forces the selected status "approved". -/
lemma implement_rendered_status {req : ChangeRequest} {user : Option User}
    (h : implementControlRendered req user = true) : req.status = "approved" := by
  simp only [implementControlRendered, Bool.and_eq_true, beq_iff_eq] at h
  exact h.1

/-! ## Claims -/

/-- C1: the UI's transition actions preserve the state machine
pending→{approved→implemented | rejected}: an approve action is only
issuable when the selected request's status is "pending", an implement
action only when its status is "approved", and from "implemented" or
"rejected" no action at all is issuable. -/
theorem issuable_transitions_respect_state_machine
    (req : ChangeRequest) (user : Option User) :
    (∀ i, UIAction.approve i ∈ issuableActions req user → req.status = "pending") ∧
    (∀ i, UIAction.implement i ∈ issuableActions req user → req.status = "approved") ∧
    ((req.status = "implemented" ∨ req.status = "rejected") →
      issuableActions req user = []) := by
  refine ⟨?_, ?_, ?_⟩
  · intro i h
    simp only [issuableActions, List.mem_append] at h
    rcases h with h | h
    · by_cases hA : approveControlRendered req user
      · exact approve_rendered_status hA
      · simp [hA] at h
    · by_cases hB : implementControlRendered req user
      · simp [hB] at h
      · simp [hB] at h
  · intro i h
    simp only [issuableActions, List.mem_append] at h
    rcases h with h | h
    · by_cases hA : approveControlRendered req user
      · simp [hA] at h
      · simp [hA] at h
    · by_cases hB : implementControlRendered req user
      · exact implement_rendered_status hB
      · simp [hB] at h
  · intro h
    have hA : approveControlRendered req user = false := by
      rcases h with h | h <;> simp [approveControlRendered, h]
    have hB : implementControlRendered req user = false := by
      rcases h with h | h <;> simp [implementControlRendered, h]
    simp [issuableActions, hA, hB]

/-- Witness for C1: from an implemented request no transition action is
issuable, even for an admin. -/
theorem issuable_transitions_witness :
    issuableActions implementedReq (some { role := "admin" }) = [] :=
  (issuable_transitions_respect_state_machine implementedReq
    (some { role := "admin" })).2.2 (Or.inl rfl)

/-- C2: the approve control is rendered only if the user's role is
"admin" or "approver", the implement control only if the role is
"admin" or "implementer", and with no user logged in neither control is
rendered. -/
theorem transition_controls_role_gated (req : ChangeRequest) (user : Option User) :
    (approveControlRendered req user = true →
      ∃ u, user = some u ∧ (u.role = "admin" ∨ u.role = "approver")) ∧
    (implementControlRendered req user = true →
      ∃ u, user = some u ∧ (u.role = "admin" ∨ u.role = "implementer")) ∧
    (user = none →
      approveControlRendered req user = false ∧
      implementControlRendered req user = false) := by
  rcases user with _ | u
  · refine ⟨?_, ?_, ?_⟩
    · intro h
      simp [approveControlRendered, userRole] at h
    · intro h
      simp [implementControlRendered, userRole] at h
    · intro _
      constructor <;> simp [approveControlRendered, implementControlRendered, userRole]
  · refine ⟨?_, ?_, ?_⟩
    · intro h
      simp only [approveControlRendered, userRole, Bool.and_eq_true,
        Bool.or_eq_true, beq_iff_eq] at h
      refine ⟨u, rfl, ?_⟩
      rcases h.2 with h2 | h2
      · exact Or.inl (by simpa using h2)
      · exact Or.inr (by simpa using h2)
    · intro h
      simp only [implementControlRendered, userRole, Bool.and_eq_true,
        Bool.or_eq_true, beq_iff_eq] at h
      refine ⟨u, rfl, ?_⟩
      rcases h.2 with h2 | h2
      · exact Or.inl (by simpa using h2)
      · exact Or.inr (by simpa using h2)
    · intro h
      exact absurd h (by simp)

/-- Witness for C2: on a pending request with an approver the approve
control is rendered, and the theorem recovers the role. -/
theorem transition_controls_role_gated_witness :
    ∃ u, some approverUser = some u ∧ (u.role = "admin" ∨ u.role = "approver") :=
  (transition_controls_role_gated pendingReq (some approverUser)).1 (by decide)

/-- C3: the filtered device list holds exactly the devices matching the
conjunction of the site predicate (identity when the selection is
"all", otherwise siteId-toString equality) and the type predicate
(identity when "all", otherwise type equality); with both selections
"all" the filter is the identity. -/
theorem filteredDevices_exact (devices : List Device) (S T : String) :
    (∀ d, d ∈ filteredDevices devices S T ↔
      d ∈ devices ∧ (S = "all" ∨ toString d.siteId = S) ∧ (T = "all" ∨ d.type = T)) ∧
    filteredDevices devices "all" "all" = devices := by
  constructor
  · intro d
    simp [filteredDevices, List.mem_filter]
  · simp [filteredDevices]

/-- Witness for C3: the warning switch of site 1 is kept by the filter
(site "1", type "all"). -/
theorem filteredDevices_exact_witness :
    warningSwitch ∈ filteredDevices [warningSwitch] "1" "all" ↔
      warningSwitch ∈ [warningSwitch] ∧
      ("1" = "all" ∨ toString warningSwitch.siteId = "1") ∧
      ("all" = "all" ∨ warningSwitch.type = "all") :=
  (filteredDevices_exact [warningSwitch] "1" "all").1 warningSwitch

/-- C7: every successful create / approve / implement mutation
invalidates the cached change-request query and performs no local
cache write (no effect merges or edits the cached list). -/
theorem mutation_success_invalidates_not_merges :
    (createOnSuccess.contains (Effect.invalidateQueries "/api/change-requests") = true ∧
      createOnSuccess.all (fun e => ! e.writesCache) = true) ∧
    (approveOnSuccess.contains (Effect.invalidateQueries "/api/change-requests") = true ∧
      approveOnSuccess.all (fun e => ! e.writesCache) = true) ∧
    (implementOnSuccess.contains (Effect.invalidateQueries "/api/change-requests") = true ∧
      implementOnSuccess.all (fun e => ! e.writesCache) = true) := by
  decide

/-- C8: every failed create / approve / implement mutation surfaces
exactly one destructive toast carrying the server's error message and
does nothing else: no cache invalidation, no cache write, no retry. -/
theorem mutation_error_single_toast (msg : String) :
    createOnError msg = [Effect.toast "Failed to Create Change Request" msg true] ∧
    approveOnError msg = [Effect.toast "Failed to Approve Change Request" msg true] ∧
    implementOnError msg = [Effect.toast "Failed to Implement Change Request" msg true] ∧
    (createOnError msg).all
      (fun e => ! e.writesCache && ! e.invalidates && ! e.retries) = true ∧
    (approveOnError msg).all
      (fun e => ! e.writesCache && ! e.invalidates && ! e.retries) = true ∧
    (implementOnError msg).all
      (fun e => ! e.writesCache && ! e.invalidates && ! e.retries) = true :=
  ⟨rfl, rfl, rfl, rfl, rfl, rfl⟩

/-- Witness for C8: a concrete server message is surfaced as the single
destructive toast of each error handler. -/
theorem mutation_error_single_toast_witness :
    createOnError "boom" = [Effect.toast "Failed to Create Change Request" "boom" true] ∧
    approveOnError "boom" = [Effect.toast "Failed to Approve Change Request" "boom" true] ∧
    implementOnError "boom" = [Effect.toast "Failed to Implement Change Request" "boom" true] ∧
    (createOnError "boom").all
      (fun e => ! e.writesCache && ! e.invalidates && ! e.retries) = true ∧
    (approveOnError "boom").all
      (fun e => ! e.writesCache && ! e.invalidates && ! e.retries) = true ∧
    (implementOnError "boom").all
      (fun e => ! e.writesCache && ! e.invalidates && ! e.retries) = true :=
  mutation_error_single_toast "boom"

/-- Bounds are preserved by any run of zoom actions from a state inside
the bounds. -/
lemma runZoom_bounds (actions : List ZoomAction) :
    ∀ z : Rat, 1/2 ≤ z → z ≤ 2 →
      1/2 ≤ runZoom z actions ∧ runZoom z actions ≤ 2 := by
  induction actions with
  | nil => intro z h1 h2; exact ⟨h1, h2⟩
  | cons a rest ih =>
    intro z h1 h2
    have hstep : 1/2 ≤ applyZoom z a ∧ applyZoom z a ≤ 2 := by
      cases a with
      | zoomIn =>
        constructor
        · exact le_min (by linarith) (by norm_num)
        · exact min_le_right _ _
      | zoomOut =>
        constructor
        · exact le_max_right _ _
        · exact max_le (by linarith) (by norm_num)
    simpa [runZoom] using ih (applyZoom z a) hstep.1 hstep.2

/-- C10: starting from the initial zoom 1, every sequence of zoom-in /
zoom-out actions (zoom-in replaces z by min(z + 0.1, 2), zoom-out by
max(z - 0.1, 0.5)) keeps the zoom within the closed interval [0.5, 2]. -/
theorem zoom_always_in_bounds (actions : List ZoomAction) :
    1/2 ≤ runZoom initialZoom actions ∧ runZoom initialZoom actions ≤ 2 :=
  runZoom_bounds actions initialZoom (by norm_num [initialZoom]) (by norm_num [initialZoom])

/-- Witness for C10: a concrete sequence of zoom actions stays inside
the bounds. -/
theorem zoom_always_in_bounds_witness :
    1/2 ≤ runZoom initialZoom [ZoomAction.zoomIn, ZoomAction.zoomOut, ZoomAction.zoomOut] ∧
    runZoom initialZoom [ZoomAction.zoomIn, ZoomAction.zoomOut, ZoomAction.zoomOut] ≤ 2 :=
  zoom_always_in_bounds [ZoomAction.zoomIn, ZoomAction.zoomOut, ZoomAction.zoomOut]

/-- C9: for a firewall change-request draft (with the enum-typed fields
holding values the form's selects offer), validation does not inspect
sourceIp — it succeeds exactly when title and description are nonempty
— and the request is submitted with the form data unchanged, so a
sourceIp left at its empty-string default is submitted as the empty
string. -/
theorem firewall_sourceIp_not_required (f : RequestForm)
    (hty : f.ty = "firewall")
    (hrisk : f.riskLevel ∈ validRiskLevels)
    (hact : f.action = none ∨ ∃ a, f.action = some a ∧ a ∈ validFirewallActions) :
    (requestFormValid f = true ↔ 1 ≤ f.title.length ∧ 1 ≤ f.description.length) ∧
    (∀ s, requestFormValid { f with sourceIp := s } = requestFormValid f) ∧
    submittedBody f = f ∧
    defaultFormValues.sourceIp = some "" := by
  refine ⟨?_, ?_, rfl, rfl⟩
  · have hact2 : (match f.action with
        | none => true
        | some a => validFirewallActions.contains a) = true := by
      rcases hact with h | ⟨a, ha, hmem⟩
      · simp [h]
      · simp [ha, hmem]
    simp only [requestFormValid, hty, hact2, Bool.and_eq_true, decide_eq_true_eq,
      validChangeTypes]
    constructor
    · rintro ⟨⟨⟨⟨ht, hd⟩, -⟩, -⟩, -⟩
      exact ⟨ht, hd⟩
    · rintro ⟨ht, hd⟩
      exact ⟨⟨⟨⟨ht, hd⟩, by decide⟩, by simpa using hrisk⟩, trivial⟩
  · intro s
    cases f
    rfl

/-- Witness for C9: the default firewall draft with a nonempty
description — sourceIp still the empty string — passes validation. -/
theorem firewall_sourceIp_not_required_witness :
    requestFormValid sampleFirewallForm = true :=
  (firewall_sourceIp_not_required sampleFirewallForm rfl (by decide)
    (Or.inr ⟨"allow", rfl, by decide⟩)).1.mpr (by decide)

/-- Counterexample to C4 as stated: a firewall with status "critical"
is rendered by the static firewall tier without any pulsing
risk-indicator circle, so the "status critical implies indicator"
direction fails for devices rendered by the static tiers. -/
theorem static_tier_no_risk_indicator :
    criticalFirewall.status = "critical" ∧
    riskIndicators (staticFirewallElements criticalFirewall) = [] := by
  decide

/-- C4 (amended): for every device rendered by the recursive hierarchy
renderer, the node group carries a pulsing risk-indicator circle iff
the status is "critical", "down" or "warning" — red for critical/down,
orange for warning — while the static firewall/router/switch tiers
never draw one, whatever the device's status. -/
theorem risk_indicator_characterization (d : DeviceNode) (x y : Rat)
    (dev : Device) (sites : List Site) :
    ((d.status = "critical" ∨ d.status = "down") →
      riskIndicators (deviceNodeElements d x y) =
        [Element.circle (x + nodeWidth d.type / 2) (y - 10) 5 "#FF0000" true (3/5)]) ∧
    (d.status = "warning" →
      riskIndicators (deviceNodeElements d x y) =
        [Element.circle (x + nodeWidth d.type / 2) (y - 10) 5 "#FF832B" true (3/5)]) ∧
    (d.status ≠ "critical" → d.status ≠ "down" → d.status ≠ "warning" →
      riskIndicators (deviceNodeElements d x y) = []) ∧
    riskIndicators (staticFirewallElements dev) = [] ∧
    riskIndicators (staticRouterElements dev) = [] ∧
    riskIndicators (staticSwitchElements dev sites) = [] := by
  refine ⟨?_, ?_, ?_, rfl, rfl, rfl⟩
  · intro h
    rcases h with h | h <;>
      simp [riskIndicators, deviceNodeElements, Element.isRiskIndicator, h]
  · intro h
    simp [riskIndicators, deviceNodeElements, Element.isRiskIndicator, h]
  · intro h1 h2 h3
    simp [riskIndicators, deviceNodeElements, Element.isRiskIndicator, h1, h2, h3]

/-- Witness for C4 (amended): a critical server node gets exactly one
red pulsing indicator above its rect. -/
theorem risk_indicator_characterization_witness :
    riskIndicators (deviceNodeElements criticalServerNode 100 200) =
      [Element.circle (100 + nodeWidth "server" / 2) (200 - 10) 5 "#FF0000" true (3/5)] :=
  (risk_indicator_characterization criticalServerNode 100 200 criticalFirewall []).1
    (Or.inl rfl)

/-- Extraction lemma for the per-child loop: the j-th child of the list
(0-based, with `index` the loop's running offset) contributes its
recursive rendering at the slot-center position determined by
`childWidth`, with available width `childWidth - 10`. -/
lemma renderChildren_child_extract (parentId : Int) (pw x y : Rat) (level : Nat)
    (availableWidth childWidth : Rat) (l : List DeviceNode) :
    ∀ (index j : Nat) (hj : j < l.length),
      ∃ pre post, renderChildren parentId pw x y level availableWidth childWidth index l =
        pre ++ renderDeviceHierarchy (l.get ⟨j, hj⟩)
          (x - availableWidth / 2 + childWidth * ((index + j : Nat) : Rat) + childWidth / 2 - 25)
          (y + verticalSpacing) (level + 1) (childWidth - 10) ++ post := by
  induction l with
  | nil =>
    intro index j hj
    exact absurd hj (by simp)
  | cons c rest ih =>
    intro index j hj
    cases j with
    | zero =>
      refine ⟨[Element.path (x + pw / 2) (y + nodeHeight) (x + pw / 2) (y + nodeHeight + 20)
          ((x - availableWidth / 2 + childWidth * (index : Rat) + childWidth / 2 - 25) + 25)
          ((y + verticalSpacing) - 20)
          ((x - availableWidth / 2 + childWidth * (index : Rat) + childWidth / 2 - 25) + 25)
          (y + verticalSpacing) "#9CA3AF"],
        renderChildren parentId pw x y level availableWidth childWidth (index + 1) rest, ?_⟩
      simp [renderChildren]
    | succ j =>
      obtain ⟨pre, post, hp⟩ :=
        ih (index + 1) j (by simp only [List.length_cons] at hj; omega)
      have hidx : index + 1 + j = index + (j + 1) := by omega
      rw [hidx] at hp
      refine ⟨Element.path (x + pw / 2) (y + nodeHeight) (x + pw / 2) (y + nodeHeight + 20)
          ((x - availableWidth / 2 + childWidth * (index : Rat) + childWidth / 2 - 25) + 25)
          ((y + verticalSpacing) - 20)
          ((x - availableWidth / 2 + childWidth * (index : Rat) + childWidth / 2 - 25) + 25)
          (y + verticalSpacing) "#9CA3AF"
          :: renderDeviceHierarchy c
            (x - availableWidth / 2 + childWidth * (index : Rat) + childWidth / 2 - 25)
            (y + verticalSpacing) (level + 1) (childWidth - 10) ++ pre, post, ?_⟩
      simp only [renderChildren, hp]
      simp [List.append_assoc]

/-- C5: every device node with n children laid out at (x, y) with
available width W gives each child the equal slot width W / n
irrespective of subtree size; child i is rendered recursively at
x-coordinate x - W/2 + (W/n)·i + (W/n)/2 - 25 and y-coordinate y + 70
(the fixed vertical spacing, independent of nesting depth), with
available width W/n - 10. -/
theorem children_equal_slots (d : DeviceNode) (x y : Rat) (level : Nat) (W : Rat)
    (i : Nat) (hi : i < d.children.length) :
    ∃ pre post,
      renderDeviceHierarchy d x y level W =
        pre ++ renderDeviceHierarchy (d.children.get ⟨i, hi⟩)
          (x - W / 2 + (W / (d.children.length : Rat)) * (i : Rat)
            + (W / (d.children.length : Rat)) / 2 - 25)
          (y + 70) (level + 1) (W / (d.children.length : Rat) - 10) ++ post := by
  rcases d with ⟨di, dn, t, st, si, pd, children⟩
  simp only [DeviceNode.children] at hi ⊢
  have hne : children.isEmpty = false := by
    cases children
    · simp at hi
    · rfl
  obtain ⟨pre, post, hp⟩ := renderChildren_child_extract di (nodeWidth t) x y level W
    (W / (children.length : Rat)) children 0 i hi
  simp only [Nat.zero_add, verticalSpacing] at hp
  refine ⟨deviceNodeElements (DeviceNode.mk di dn t st si pd children) x y ++ pre, post, ?_⟩
  simp only [renderDeviceHierarchy, hne, Bool.false_eq_true, if_false, hp]
  simp [List.append_assoc]

/-- Witness for C5: the single child of the sample switch (i = 0,
W = 300) is rendered at the slot-center position with width 300 − 10. -/
theorem children_equal_slots_witness :
    ∃ pre post,
      renderDeviceHierarchy sampleSwitchParent 400 100 0 300 =
        pre ++ renderDeviceHierarchy (sampleSwitchParent.children.get ⟨0, by decide⟩)
          (400 - 300 / 2 + (300 / (sampleSwitchParent.children.length : Rat)) * ((0 : Nat) : Rat)
            + (300 / (sampleSwitchParent.children.length : Rat)) / 2 - 25)
          (100 + 70) (0 + 1) (300 / (sampleSwitchParent.children.length : Rat) - 10) ++ post :=
  children_equal_slots sampleSwitchParent 400 100 0 300 0 (by decide)

/-- Membership lemma for the per-child loop: the j-th child's connector
path — a cubic starting at the parent's bottom-center and ending at the
child slot's center, 25 to the right of the child's anchor — is among
the loop's elements. -/
lemma renderChildren_connector_mem (parentId : Int) (pw x y : Rat) (level : Nat)
    (availableWidth childWidth : Rat) (l : List DeviceNode) :
    ∀ (index j : Nat), j < l.length →
      Element.path (x + pw / 2) (y + nodeHeight) (x + pw / 2) (y + nodeHeight + 20)
        ((x - availableWidth / 2 + childWidth * ((index + j : Nat) : Rat) + childWidth / 2 - 25) + 25)
        ((y + verticalSpacing) - 20)
        ((x - availableWidth / 2 + childWidth * ((index + j : Nat) : Rat) + childWidth / 2 - 25) + 25)
        (y + verticalSpacing) "#9CA3AF"
        ∈ renderChildren parentId pw x y level availableWidth childWidth index l := by
  induction l with
  | nil =>
    intro index j hj
    exact absurd hj (by simp)
  | cons c rest ih =>
    intro index j hj
    cases j with
    | zero =>
      simp only [renderChildren, Nat.add_zero]
      exact List.mem_cons_self _ _
    | succ j =>
      have hmem := ih (index + 1) j (by simp only [List.length_cons] at hj; omega)
      have hidx : index + 1 + j = index + (j + 1) := by omega
      rw [hidx] at hmem
      simp only [renderChildren]
      exact List.mem_cons_of_mem _ (List.mem_append_right _ hmem)

/-- C6 (amended): the connector for child i is a cubic curve whose
start is the parent's bottom-center (x + parentNodeWidth/2, y + 40)
— node width 50 for servers, 60 otherwise — and whose end is
(childX + 25, childY), the center of the child's horizontal slot; since
25 is half the server node width, the end coincides with the child's
top-center exactly for server children, and sits 5 left of top-center
for any other child type (width 60). -/
theorem connector_parent_bottom_to_slot_center (d : DeviceNode) (x y : Rat)
    (level : Nat) (W : Rat) (i : Nat) (hi : i < d.children.length) :
    Element.path (x + nodeWidth d.type / 2) (y + nodeHeight)
        (x + nodeWidth d.type / 2) (y + nodeHeight + 20)
        ((x - W / 2 + (W / (d.children.length : Rat)) * (i : Rat)
          + (W / (d.children.length : Rat)) / 2 - 25) + 25)
        ((y + 70) - 20)
        ((x - W / 2 + (W / (d.children.length : Rat)) * (i : Rat)
          + (W / (d.children.length : Rat)) / 2 - 25) + 25)
        (y + 70) "#9CA3AF"
      ∈ renderDeviceHierarchy d x y level W := by
  rcases d with ⟨di, dn, t, st, si, pd, children⟩
  simp only [DeviceNode.children] at hi
  simp only [DeviceNode.children, DeviceNode.type]
  have hne : children.isEmpty = false := by
    cases children
    · simp at hi
    · rfl
  have hmem := renderChildren_connector_mem di (nodeWidth t) x y level W
    (W / (children.length : Rat)) children 0 i hi
  simp only [Nat.zero_add, verticalSpacing] at hmem
  simp only [renderDeviceHierarchy, hne, Bool.false_eq_true, if_false]
  exact List.mem_append_right _ hmem

/-- Counterexample to C6 as stated: rendering a router whose single
child is a switch (node width 60), the only connector ends at
x-coordinate 400, while the child rect sits at x = 375 with width 60,
so its top-center is at 375 + 60/2 = 405 ≠ 400. -/
theorem connector_not_child_top_center :
    pathEndPoints (renderDeviceHierarchy sampleRouterParent 400 100 0 300) = [(400, 170)] ∧
    rectAnchors (renderDeviceHierarchy sampleRouterParent 400 100 0 300) =
      [(400, 100, 60), (375, 170, 60)] ∧
    (375 : Rat) + 60 / 2 ≠ 400 := by
  refine ⟨?_, ?_, by norm_num⟩ <;>
    norm_num +decide [sampleRouterParent, sampleSwitchChild, renderDeviceHierarchy, renderChildren,
      deviceNodeElements, pathEndPoints, rectAnchors, deviceColors, nodeWidth, nodeHeight,
      verticalSpacing, hierarchyLabel, DeviceNode.id, DeviceNode.name, DeviceNode.type,
      DeviceNode.status, DeviceNode.children]

/-- Witness for C6 (amended): the connector of the sample switch-parent
(server child) is present in the rendering. -/
theorem connector_parent_bottom_to_slot_center_witness :
    Element.path (400 + nodeWidth sampleSwitchParent.type / 2) (100 + nodeHeight)
        (400 + nodeWidth sampleSwitchParent.type / 2) (100 + nodeHeight + 20)
        ((400 - 300 / 2 + (300 / (sampleSwitchParent.children.length : Rat)) * ((0 : Nat) : Rat)
          + (300 / (sampleSwitchParent.children.length : Rat)) / 2 - 25) + 25)
        ((100 + 70) - 20)
        ((400 - 300 / 2 + (300 / (sampleSwitchParent.children.length : Rat)) * ((0 : Nat) : Rat)
          + (300 / (sampleSwitchParent.children.length : Rat)) / 2 - 25) + 25)
        (100 + 70) "#9CA3AF"
      ∈ renderDeviceHierarchy sampleSwitchParent 400 100 0 300 :=
  connector_parent_bottom_to_slot_center sampleSwitchParent 400 100 0 300 0 (by decide)

end Verisentinel
